import Mathlib

/-!
Shallow embedding of the jfrog-cli-artifactory sources relevant to the
release-bundle path builders (lifecycle/commands/common.go), the evidence
key readers (evidence/cryptox/readkey.go), and the create-evidence CLI
validation and subject-resolution pipeline (evidence/cli).

Go conventions mapped to Lean:
  - a Go function returning (T, error) becomes Except String T
    (errors are the formatted message strings produced via errorutils or errors.New);
  - a Go function returning (*T, error) where (nil, nil) is a possible result
    becomes Except String (Option T);
  - os.Getenv becomes an explicit environment Env : String -> String
    (the empty string means the variable is unset, as in Go);
  - the mutable components.Context becomes an explicit record threaded through
    the functions that mutate it (AddStringFlag prepends to the flag list, so a
    later AddStringFlag shadows earlier values, like the CLI flag store).
-/

namespace cryptox

/-- The private/public halves of a key, as used by readkey.go
(`slibKey.KeyVal.Private`, `slibKey.KeyVal.Public`). -/
structure KeyVal where
  Private : String
  Public : String
  Certificate : String
deriving Repr, DecidableEq

/-- An SSL-lib key as used by readkey.go; only the fields the read functions
touch are modelled. -/
structure SSLibKey where
  keyVal : KeyVal
deriving Repr, DecidableEq

/-- Byte content of a key file (Go []byte). -/
abbrev Bytes := List UInt8

/-- Embedding of cryptox.ReadKey from evidence/cryptox/readkey.go.
LoadKey is defined elsewhere in the cryptox package (outside the provided
sources), so ReadKey is parameterised by it. `.ok none` represents Go's
(nil, nil) return. -/
def ReadKey (loadKey : Bytes → Except String SSLibKey) (fileContent : Bytes) :
    Except String (Option SSLibKey) :=
  match loadKey fileContent with
  | .error err => .error err
  | .ok slibKey =>
    if slibKey.keyVal.Private ≠ "" then .ok (some slibKey)
    else .ok none

/-- Embedding of cryptox.ReadPublicKey from evidence/cryptox/readkey.go. -/
def ReadPublicKey (loadKey : Bytes → Except String SSLibKey) (fileContent : Bytes) :
    Except String (Option SSLibKey) :=
  match loadKey fileContent with
  | .error err => .error err
  | .ok slibKey =>
    if slibKey.keyVal.Public ≠ "" then .ok (some slibKey)
    else .ok none

end cryptox

namespace commands

/-- Constant rbV2manifestName from lifecycle/commands/common.go. -/
def rbV2manifestName : String := "release-bundle.json.evd"

/-- Constant releaseBundlesV2 from lifecycle/commands/common.go. -/
def releaseBundlesV2 : String := "release-bundles-v2"

/-- Embedding of buildRepoKey from lifecycle/commands/common.go. -/
def buildRepoKey (project : String) : String :=
  if project = "" ∨ project = "default" then releaseBundlesV2
  else project ++ "-" ++ releaseBundlesV2

/-- Embedding of buildManifestPath from lifecycle/commands/common.go
(fmt.Sprintf with four components separated by slashes). -/
def buildManifestPath (projectKey name version : String) : String :=
  buildRepoKey projectKey ++ "/" ++ name ++ "/" ++ version ++ "/" ++ rbV2manifestName

/-- A single distribution rule (spec.DistributionRules entry); the fields the
lifecycle code reads through IsEmpty and ToDistributionCommonParams. -/
structure DistributionRule where
  siteName : String
  cityName : String
  countryCodes : List String
deriving Repr, DecidableEq, Inhabited

/-- distribution.DistributionCommonParams as produced by getAggregatedDistRules. -/
structure DistributionCommonParams where
  SiteName : String
  CityName : String
  CountryCodes : List String
deriving Repr, DecidableEq

/-- IsEmpty on a distribution rule: every field is empty. -/
def DistributionRule.IsEmpty (r : DistributionRule) : Bool :=
  r.siteName = "" && r.cityName = "" && r.countryCodes.isEmpty

/-- ToDistributionCommonParams: field-for-field copy into the client params. -/
def DistributionRule.toDistributionCommonParams (r : DistributionRule) :
    DistributionCommonParams :=
  { SiteName := r.siteName, CityName := r.cityName, CountryCodes := r.countryCodes }

/-- The *spec.DistributionRules argument: `none` is Go's nil pointer, `some rules`
holds the DistributionRules slice. -/
abbrev DistributionRulesArg := Option (List DistributionRule)

/-- Embedding of isDistributionRulesEmpty from lifecycle/commands/common.go. -/
def isDistributionRulesEmpty (distributionRules : DistributionRulesArg) : Bool :=
  match distributionRules with
  | none => true
  | some rules =>
    rules.length = 0 || (rules.length = 1 && (rules.headD default).IsEmpty)

/-- Embedding of getAggregatedDistRules from lifecycle/commands/common.go. -/
def getAggregatedDistRules (distributionRules : DistributionRulesArg) :
    List DistributionCommonParams :=
  if isDistributionRulesEmpty distributionRules then
    [{ SiteName := "*", CityName := "", CountryCodes := [] }]
  else
    (distributionRules.getD []).map DistributionRule.toDistributionCommonParams

end commands

namespace cli

/-- The process environment: os.Getenv. An unset variable reads as "". -/
abbrev Env := String → String

/-- The CLI context: which flags were set (with their string values, newest
first) and the positional arguments. -/
structure Context where
  flags : List (String × String)
  arguments : List String
deriving Repr, DecidableEq

/-- ctx.IsFlagSet. -/
def isFlagSet (ctx : Context) (name : String) : Bool :=
  (ctx.flags.lookup name).isSome

/-- ctx.GetStringFlagValue: the value of a set flag, "" when unset. -/
def getStringFlagValue (ctx : Context) (name : String) : String :=
  (ctx.flags.lookup name).getD default

/-- ctx.AddStringFlag: records a flag value (shadowing any earlier one). -/
def addStringFlag (ctx : Context) (name value : String) : Context :=
  { ctx with flags := (name, value) :: ctx.flags }

/-- Flag name constant. -/
def predicate : String := "predicate"

/-- Flag name constant. -/
def predicateType : String := "predicate-type"

/-- Flag name constant. -/
def key : String := "key"

/-- Flag name constant. -/
def keyAlias : String := "key-alias"

/-- Flag name constant. -/
def buildName : String := "build-name"

/-- Flag name constant. -/
def buildNumber : String := "build-number"

/-- Flag name constant. -/
def releaseBundle : String := "release-bundle"

/-- Flag name constant. -/
def packageName : String := "package-name"

/-- Flag name constant. -/
def subjectRepoPath : String := "repo-path"

/-- Modelled from the spec: the list of mutually-exclusive subject flags
(`repo-path`, `release-bundle`, `build-name`, `package-name`); the slice
subjectTypes is declared in an evidence/cli file outside the provided sources. -/
def subjectTypes : List String :=
  [subjectRepoPath, releaseBundle, buildName, packageName]

/-- Environment variable name coreUtils.SigningKey. -/
def signingKeyEnv : String := "JFROG_CLI_SIGNING_KEY"

/-- Environment variable name coreUtils.KeyAlias. -/
def keyAliasEnv : String := "JFROG_CLI_KEY_ALIAS"

/-- Environment variable name coreUtils.BuildName. -/
def buildNameEnv : String := "JFROG_CLI_BUILD_NAME"

/-- Environment variable name coreUtils.BuildNumber. -/
def buildNumberEnv : String := "JFROG_CLI_BUILD_NUMBER"

/-- Separator used by strings.Join in the error messages. -/
def commaSep : String := ", "

/-- Error text of ensureKeyExists. -/
def keyErrMsg : String :=
  "JFROG_CLI_SIGNING_KEY env variable or --" ++ key ++
    " flag must be provided when creating evidence"

/-- Error text of the predicate check in validateCreateEvidenceCommonContext. -/
def predicateErrMsg : String :=
  "'predicate' is a mandatory field for creating evidence: --" ++ predicate

/-- Error text of the predicate-type check in validateCreateEvidenceCommonContext. -/
def predicateTypeErrMsg : String :=
  "'predicate-type' is a mandatory field for creating evidence: --" ++ predicateType

/-- Error text returned by the external WrongNumberOfArgumentsHandler. -/
def wrongArgCountErrMsg : String := "wrong number of arguments"

/-- Error text of getAndValidateSubject when no subject is resolvable. -/
def noSubjectErrMsg : String :=
  "subject must be one of the fields: [" ++ String.intercalate commaSep subjectTypes ++ "]"

/-- Error text of validateFoundSubjects for a given conflicting-subject list. -/
def multipleSubjectsErrMsg (foundSubjects : List String) : String :=
  "multiple subjects found: [" ++ String.intercalate commaSep foundSubjects ++ "]"

/-- Error text of evidenceDetailsByFlags for a missing platform URL. -/
def platformUrlErrMsg : String := "platform URL is mandatory for evidence commands"

/-- Error text of evidenceDetailsByFlags for basic authentication. -/
def basicAuthErrMsg : String := "evidence service does not support basic authentication"

/-- Embedding of assertValueProvided: `none` is Go's nil error. -/
def assertValueProvided (c : Context) (fieldName : String) : Option String :=
  if getStringFlagValue c fieldName = "" then
    some ("the --" ++ fieldName ++ " option is mandatory")
  else none

/-- Embedding of ensureKeyExists (called with the `key` flag name): succeed if
the flag carries a value, otherwise fall back to the JFROG_CLI_SIGNING_KEY
environment variable, adding it as the flag value; fail if both are absent. -/
def ensureKeyExists (env : Env) (ctx : Context) : Except String Context :=
  if isFlagSet ctx key ∧ assertValueProvided ctx key = none then .ok ctx
  else
    let signingKeyValue := env signingKeyEnv
    if signingKeyValue = "" then .error keyErrMsg
    else .ok (addStringFlag ctx key signingKeyValue)

/-- Embedding of setKeyAliasIfProvided: copies the key-alias environment
variable into the flag when the variable is non-empty. -/
def setKeyAliasIfProvided (env : Env) (ctx : Context) : Context :=
  let evdKeyAliasValue := env keyAliasEnv
  if evdKeyAliasValue ≠ "" then addStringFlag ctx keyAlias evdKeyAliasValue
  else ctx

/-- Embedding of validateCreateEvidenceCommonContext. The external
ShowCmdHelpIfNeeded call (help-text display, no validation logic) is outside
the provided sources and not modelled; the remaining checks follow the source
order: argument count, predicate, predicate-type, key, key-alias. -/
def validateCreateEvidenceCommonContext (env : Env) (ctx : Context) :
    Except String Context :=
  if 1 < ctx.arguments.length then .error wrongArgCountErrMsg
  else if ¬ isFlagSet ctx predicate ∨ assertValueProvided ctx predicate ≠ none then
    .error predicateErrMsg
  else if ¬ isFlagSet ctx predicateType ∨ assertValueProvided ctx predicateType ≠ none then
    .error predicateTypeErrMsg
  else
    match ensureKeyExists env ctx with
    | .error err => .error err
    | .ok ctx1 =>
      if ¬ isFlagSet ctx1 keyAlias then .ok (setKeyAliasIfProvided env ctx1)
      else .ok ctx1

/-- Embedding of setBuildValue: a flag counts as present when it was set
explicitly; otherwise a non-empty environment variable is copied in. -/
def setBuildValue (env : Env) (ctx : Context) (flag envVar : String) : Bool × Context :=
  if isFlagSet ctx flag then (true, ctx)
  else
    let currentValue := env envVar
    if currentValue ≠ "" then (true, addStringFlag ctx flag currentValue)
    else (false, ctx)

/-- Embedding of attemptSetBuildNameAndNumber: both the build name and the
build number must be obtainable. -/
def attemptSetBuildNameAndNumber (env : Env) (ctx : Context) : Bool × Context :=
  let r1 := setBuildValue env ctx buildName buildNameEnv
  let r2 := setBuildValue env r1.2 buildNumber buildNumberEnv
  (r1.1 && r2.1, r2.2)

/-- Embedding of validateFoundSubjects: `none` is Go's nil error. -/
def validateFoundSubjects (foundSubjects : List String) : Option String :=
  if 1 < foundSubjects.length then some (multipleSubjectsErrMsg foundSubjects)
  else none

/-- Embedding of getAndValidateSubject: collect the subject flags carrying a
non-empty value; when none is found try the build name/number fallback (and
treat buildName as the found subject); then reject multiple subjects and
return the first found subject. -/
def getAndValidateSubject (env : Env) (ctx : Context) :
    Except String (String × Context) :=
  let found0 := subjectTypes.filter (fun k => getStringFlagValue ctx k ≠ "")
  let step : Except String (List String × Context) :=
    if found0.length = 0 then
      let r := attemptSetBuildNameAndNumber env ctx
      if ¬ r.1 then .error noSubjectErrMsg
      else .ok (found0 ++ [buildName], r.2)
    else .ok (found0, ctx)
  match step with
  | .error err => .error err
  | .ok (foundSubjects, ctx1) =>
    match validateFoundSubjects foundSubjects with
    | some err => .error err
    | none => .ok (foundSubjects.headD default, ctx1)

/-- The server-connection details the evidence commands use; only the fields
read or written by evidenceDetailsByFlags are modelled (GetUser and
GetPassword return the User and Password fields). -/
structure ServerDetails where
  Url : String
  ArtifactoryUrl : String
  EvidenceUrl : String
  MetadataUrl : String
  User : String
  Password : String
deriving Repr, DecidableEq

/-- The slash separator. -/
def slashStr : String := "/"

/-- clientUtils.AddTrailingSlashIfNeeded: append a slash to a non-empty URL
that does not already end with one. -/
def addTrailingSlashIfNeeded (url : String) : String :=
  if url ≠ "" ∧ ¬ url.endsWith slashStr then url ++ "/" else url

/-- Embedding of platformToEvidenceUrls: derive the service URLs from the
platform URL. -/
def platformToEvidenceUrls (rtDetails : ServerDetails) : ServerDetails :=
  { rtDetails with
    ArtifactoryUrl := addTrailingSlashIfNeeded rtDetails.Url ++ "artifactory/"
    EvidenceUrl := addTrailingSlashIfNeeded rtDetails.Url ++ "evidence/"
    MetadataUrl := addTrailingSlashIfNeeded rtDetails.Url ++ "metadata/" }

/-- Embedding of evidenceDetailsByFlags, starting from the server details the
external CreateServerDetailsWithConfigOffer resolved: require a platform URL,
derive the service URLs, and reject basic (user+password) authentication. -/
def evidenceDetailsByFlags (serverDetails : ServerDetails) : Except String ServerDetails :=
  if serverDetails.Url = "" then .error platformUrlErrMsg
  else
    let rtDetails := platformToEvidenceUrls serverDetails
    if rtDetails.User ≠ "" ∧ rtDetails.Password ≠ "" then .error basicAuthErrMsg
    else .ok rtDetails

/-- The createEvidence pipeline up to (and excluding) command dispatch: common
validation, then subject resolution, then server-detail resolution, in the
source order. The network-facing CreateEvidence call is outside this model. -/
def createEvidencePipeline (env : Env) (serverDetails : ServerDetails) (ctx : Context) :
    Except String (String × Context × ServerDetails) :=
  match validateCreateEvidenceCommonContext env ctx with
  | .error err => .error err
  | .ok ctx1 =>
    match getAndValidateSubject env ctx1 with
    | .error err => .error err
    | .ok (subject, ctx2) =>
      match evidenceDetailsByFlags serverDetails with
      | .error err => .error err
      | .ok details => .ok (subject, ctx2, details)

end cli

/-! Sample values used by the witness theorems. -/

/-- The empty string (Go zero value). -/
def emptyStr : String := ""

/-- Sample project key. -/
def sampleProj : String := "proj"

/-- Sample release-bundle name. -/
def sampleRb1 : String := "rb1"

/-- Sample release-bundle version. -/
def sampleV10 : String := "1.0"

/-- Sample non-empty flag/environment value. -/
def sampleBn : String := "bn"

/-- Sample build number value. -/
def sampleOne : String := "1"

/-- Sample platform URL. -/
def sampleUrl : String := "http://acme.io"

/-- A context with no flags and no arguments. -/
def emptyCtx : cli.Context := { flags := [], arguments := [] }

/-- A context in which two subject flags carry non-empty values. -/
def sampleCtxTwoSubjects : cli.Context :=
  { flags := [(cli.releaseBundle, sampleBn), (cli.buildName, sampleBn)], arguments := [] }

/-- An environment carrying build name and number, nothing else. -/
def sampleBuildEnv : cli.Env :=
  fun v => if v = cli.buildNameEnv then sampleBn
    else if v = cli.buildNumberEnv then sampleOne
    else emptyStr

/-- An environment with every variable unset. -/
def noEnv : cli.Env := fun _ => emptyStr

/-- A loadKey stub whose key has both halves empty. -/
def sampleLoadKeyEmptyHalves : cryptox.Bytes → Except String cryptox.SSLibKey :=
  fun _ => .ok { keyVal := { Private := emptyStr, Public := emptyStr, Certificate := emptyStr } }

/-- A distribution rule with a site name set. -/
def sampleRule : commands.DistributionRule :=
  { siteName := "site1", cityName := emptyStr, countryCodes := [] }

/-- Server details carrying only a platform URL (token auth, no user/password). -/
def sampleServer : cli.ServerDetails :=
  { Url := sampleUrl, ArtifactoryUrl := emptyStr, EvidenceUrl := emptyStr,
    MetadataUrl := emptyStr, User := emptyStr, Password := emptyStr }

/-- A context with predicate and predicate-type set but no key and no subject. -/
def sampleCtxNoKey : cli.Context :=
  { flags := [(cli.predicate, sampleBn), (cli.predicateType, sampleBn)], arguments := [] }

/-! Helper lemmas shared by the claim theorems. -/

/-- Joining a slash in front of the manifest name gives the manifest suffix. -/
theorem append_slash_manifest (s : String) :
    s ++ "/" ++ commands.rbV2manifestName = s ++ "/release-bundle.json.evd" := by
  rw [String.append_assoc]
  rfl

/-- Joining a dash in front of the repository suffix gives the dashed suffix. -/
theorem append_dash_suffix (s : String) :
    s ++ "-" ++ commands.releaseBundlesV2 = s ++ "-release-bundles-v2" := by
  rw [String.append_assoc]
  rfl

/-! Claim theorems. -/

/-- C3: buildRepoKey returns "release-bundles-v2" when the project is the
empty string or "default", and otherwise the project string followed by
"-release-bundles-v2". -/
theorem claim3_buildRepoKey (project : String) :
    ((project = "" ∨ project = "default") →
      commands.buildRepoKey project = "release-bundles-v2")
    ∧ (¬ (project = "" ∨ project = "default") →
      commands.buildRepoKey project = project ++ "-release-bundles-v2") := by
  constructor
  · intro h
    simp [commands.buildRepoKey, h, commands.releaseBundlesV2]
  · intro h
    unfold commands.buildRepoKey
    rw [if_neg h]
    exact append_dash_suffix project

/-- Witness for C3 at the project keys "" and "proj". -/
theorem claim3_buildRepoKey_witness :
    commands.buildRepoKey emptyStr = "release-bundles-v2" ∧
    commands.buildRepoKey sampleProj = sampleProj ++ "-release-bundles-v2" :=
  ⟨(claim3_buildRepoKey emptyStr).1 (Or.inl rfl),
   (claim3_buildRepoKey sampleProj).2 (by decide)⟩

/-- C4: buildManifestPath is the repository key of the project followed by the
name, the version and the manifest file name, slash-separated; in particular
at ("", "rb1", "1.0") and ("proj", "rb1", "1.0") it yields the two expected
concrete paths. -/
theorem claim4_buildManifestPath (p n v : String) :
    commands.buildManifestPath p n v =
      commands.buildRepoKey p ++ "/" ++ n ++ "/" ++ v ++ "/release-bundle.json.evd" ∧
    commands.buildManifestPath emptyStr sampleRb1 sampleV10 =
      "release-bundles-v2/rb1/1.0/release-bundle.json.evd" ∧
    commands.buildManifestPath sampleProj sampleRb1 sampleV10 =
      "proj-release-bundles-v2/rb1/1.0/release-bundle.json.evd" := by
  refine ⟨?_, by decide, by decide⟩
  unfold commands.buildManifestPath
  exact append_slash_manifest (commands.buildRepoKey p ++ "/" ++ n ++ "/" ++ v)

/-- C5: when LoadKey succeeds but the private (resp. public) half of the key
is empty, ReadKey (resp. ReadPublicKey) returns a nil key together with a nil
error, i.e. `.ok none`. -/
theorem claim5_read_key_absent_half
    (loadKey : cryptox.Bytes → Except String cryptox.SSLibKey)
    (fileContent : cryptox.Bytes) (k : cryptox.SSLibKey)
    (h : loadKey fileContent = .ok k) :
    (k.keyVal.Private = "" → cryptox.ReadKey loadKey fileContent = .ok none)
    ∧ (k.keyVal.Public = "" → cryptox.ReadPublicKey loadKey fileContent = .ok none) := by
  constructor
  · intro hk
    simp [cryptox.ReadKey, h, hk]
  · intro hk
    simp [cryptox.ReadPublicKey, h, hk]

/-- Witness for C5 on a loadKey stub whose key has both halves empty. -/
theorem claim5_read_key_absent_half_witness :
    cryptox.ReadKey sampleLoadKeyEmptyHalves [] = .ok none ∧
    cryptox.ReadPublicKey sampleLoadKeyEmptyHalves [] = .ok none :=
  ⟨(claim5_read_key_absent_half sampleLoadKeyEmptyHalves [] _ rfl).1 rfl,
   (claim5_read_key_absent_half sampleLoadKeyEmptyHalves [] _ rfl).2 rfl⟩

/-- C8: the path builders are pure and deterministic: any number of repeated
calls on the same arguments yields the same replicated result. -/
theorem claim8_path_builders_deterministic (p n v : String) (count : Nat) :
    (List.replicate count p).map commands.buildRepoKey =
      List.replicate count (commands.buildRepoKey p) ∧
    (List.replicate count (p, n, v)).map
        (fun t => commands.buildManifestPath t.1 t.2.1 t.2.2) =
      List.replicate count (commands.buildManifestPath p n v) := by
  constructor <;> simp [List.map_replicate]

/-- C9: getAggregatedDistRules returns the single wildcard rule exactly on
empty input (nil pointer, zero rules, or one rule that is itself empty), and
otherwise one aggregated rule per input rule, in input order. -/
theorem claim9_getAggregatedDistRules (d : commands.DistributionRulesArg) :
    (commands.isDistributionRulesEmpty d = true ↔
      d = none ∨ d = some [] ∨ ∃ r, d = some [r] ∧ r.IsEmpty = true)
    ∧ (commands.isDistributionRulesEmpty d = true →
        commands.getAggregatedDistRules d =
          [{ SiteName := "*", CityName := "", CountryCodes := [] }])
    ∧ (∀ rules, d = some rules → commands.isDistributionRulesEmpty d = false →
        commands.getAggregatedDistRules d =
          rules.map commands.DistributionRule.toDistributionCommonParams) := by
  refine ⟨?_, ?_, ?_⟩
  · match d with
    | none => simp [commands.isDistributionRulesEmpty]
    | some [] => simp [commands.isDistributionRulesEmpty]
    | some [r] => simp [commands.isDistributionRulesEmpty]
    | some (r1 :: r2 :: rest) => simp [commands.isDistributionRulesEmpty]
  · intro h
    simp [commands.getAggregatedDistRules, h]
  · intro rules hd h
    subst hd
    simp [commands.getAggregatedDistRules, h]

/-- Witness for C9 on a one-rule input whose rule is non-empty. -/
theorem claim9_getAggregatedDistRules_witness :
    commands.getAggregatedDistRules (some [sampleRule]) =
      [commands.DistributionRule.toDistributionCommonParams sampleRule] :=
  (claim9_getAggregatedDistRules (some [sampleRule])).2.2 [sampleRule] rfl (by decide)

/-- C10: evidenceDetailsByFlags rejects an empty platform URL and basic
(user+password) authentication, and on success returns details whose
Artifactory, Evidence and Metadata URLs are the slash-terminated platform URL
followed by the respective service suffix. -/
theorem claim10_evidenceDetailsByFlags (serverDetails : cli.ServerDetails) :
    (serverDetails.Url = "" →
      cli.evidenceDetailsByFlags serverDetails = .error cli.platformUrlErrMsg)
    ∧ (serverDetails.Url ≠ "" → serverDetails.User ≠ "" → serverDetails.Password ≠ "" →
      cli.evidenceDetailsByFlags serverDetails = .error cli.basicAuthErrMsg)
    ∧ (serverDetails.Url ≠ "" → ¬ (serverDetails.User ≠ "" ∧ serverDetails.Password ≠ "") →
      cli.evidenceDetailsByFlags serverDetails =
        .ok (cli.platformToEvidenceUrls serverDetails)
      ∧ (cli.platformToEvidenceUrls serverDetails).ArtifactoryUrl =
          cli.addTrailingSlashIfNeeded serverDetails.Url ++ "artifactory/"
      ∧ (cli.platformToEvidenceUrls serverDetails).EvidenceUrl =
          cli.addTrailingSlashIfNeeded serverDetails.Url ++ "evidence/"
      ∧ (cli.platformToEvidenceUrls serverDetails).MetadataUrl =
          cli.addTrailingSlashIfNeeded serverDetails.Url ++ "metadata/") := by
  refine ⟨?_, ?_, ?_⟩
  · intro h
    simp [cli.evidenceDetailsByFlags, h]
  · intro hu hU hP
    simp [cli.evidenceDetailsByFlags, cli.platformToEvidenceUrls, hu, hU, hP]
  · intro hu hbasic
    refine ⟨?_, rfl, rfl, rfl⟩
    simp only [cli.evidenceDetailsByFlags, if_neg (by simpa using hu)]
    rw [if_neg (by simpa [cli.platformToEvidenceUrls] using hbasic)]

/-- Witness for C10 on server details carrying only a platform URL. -/
theorem claim10_evidenceDetailsByFlags_witness :
    cli.evidenceDetailsByFlags sampleServer = .ok (cli.platformToEvidenceUrls sampleServer)
    ∧ (cli.platformToEvidenceUrls sampleServer).ArtifactoryUrl =
        cli.addTrailingSlashIfNeeded sampleServer.Url ++ "artifactory/"
    ∧ (cli.platformToEvidenceUrls sampleServer).EvidenceUrl =
        cli.addTrailingSlashIfNeeded sampleServer.Url ++ "evidence/"
    ∧ (cli.platformToEvidenceUrls sampleServer).MetadataUrl =
        cli.addTrailingSlashIfNeeded sampleServer.Url ++ "metadata/" :=
  (claim10_evidenceDetailsByFlags sampleServer).2.2 (by decide) (by decide)

/-- assertValueProvided returns nil exactly when the flag value is non-empty. -/
theorem assertValueProvided_eq_none_iff (c : cli.Context) (fieldName : String) :
    cli.assertValueProvided c fieldName = none ↔
      cli.getStringFlagValue c fieldName ≠ "" := by
  unfold cli.assertValueProvided
  split <;> simp_all

/-- Adding one flag does not change whether a differently-named flag is set. -/
theorem isFlagSet_addStringFlag_ne (ctx : cli.Context) (name value other : String)
    (hne : (other == name) = false) :
    cli.isFlagSet (cli.addStringFlag ctx name value) other = cli.isFlagSet ctx other := by
  unfold cli.isFlagSet cli.addStringFlag
  simp [List.lookup, hne]

/-- The success bit of setBuildValue: the flag is set or the variable is non-empty. -/
theorem setBuildValue_fst_iff (env : cli.Env) (ctx : cli.Context) (flag envVar : String) :
    (cli.setBuildValue env ctx flag envVar).1 = true ↔
      (cli.isFlagSet ctx flag = true ∨ env envVar ≠ "") := by
  unfold cli.setBuildValue
  by_cases hf : cli.isFlagSet ctx flag = true
  · simp [hf]
  · by_cases he : env envVar = ""
    · simp [hf, he]
    · simp [hf, he]

/-- setBuildValue leaves the set-state of a differently-named flag unchanged. -/
theorem setBuildValue_snd_isFlagSet (env : cli.Env) (ctx : cli.Context)
    (flag envVar other : String) (hne : (other == flag) = false) :
    cli.isFlagSet (cli.setBuildValue env ctx flag envVar).2 other =
      cli.isFlagSet ctx other := by
  unfold cli.setBuildValue
  by_cases hf : cli.isFlagSet ctx flag = true
  · simp [hf]
  · by_cases he : env envVar = ""
    · simp [hf, he]
    · have hadd := isFlagSet_addStringFlag_ne ctx flag (env envVar) other hne
      simp [hf, he, hadd]

/-- The success bit of attemptSetBuildNameAndNumber: both the build name and
the build number are obtainable from flag or environment. -/
theorem attemptSetBuildNameAndNumber_fst_iff (env : cli.Env) (ctx : cli.Context) :
    (cli.attemptSetBuildNameAndNumber env ctx).1 = true ↔
      ((cli.isFlagSet ctx cli.buildName = true ∨ env cli.buildNameEnv ≠ "") ∧
       (cli.isFlagSet ctx cli.buildNumber = true ∨ env cli.buildNumberEnv ≠ "")) := by
  unfold cli.attemptSetBuildNameAndNumber
  simp only [Bool.and_eq_true]
  rw [setBuildValue_fst_iff, setBuildValue_fst_iff,
    setBuildValue_snd_isFlagSet env ctx cli.buildName cli.buildNameEnv cli.buildNumber
      (by decide)]

/-- C1: when more than one subject flag carries a non-empty value, subject
resolution fails with the multiple-subjects error naming all conflicting
fields, and no subject is returned. -/
theorem claim1_ambiguous_subject (env : cli.Env) (ctx : cli.Context)
    (h : 2 ≤ (cli.subjectTypes.filter (fun k => cli.getStringFlagValue ctx k ≠ "")).length) :
    cli.getAndValidateSubject env ctx =
      .error (cli.multipleSubjectsErrMsg
        (cli.subjectTypes.filter (fun k => cli.getStringFlagValue ctx k ≠ ""))) := by
  have h0 : ¬ ((cli.subjectTypes.filter
      (fun k => cli.getStringFlagValue ctx k ≠ "")).length = 0) := by omega
  have h1 : 1 < (cli.subjectTypes.filter
      (fun k => cli.getStringFlagValue ctx k ≠ "")).length := by omega
  simp only [cli.getAndValidateSubject]
  rw [if_neg h0]
  simp only [cli.validateFoundSubjects]
  rw [if_pos h1]

/-- Witness for C1 on a context setting both release-bundle and build-name. -/
theorem claim1_ambiguous_subject_witness :
    cli.getAndValidateSubject noEnv sampleCtxTwoSubjects =
      .error (cli.multipleSubjectsErrMsg
        (cli.subjectTypes.filter
          (fun k => cli.getStringFlagValue sampleCtxTwoSubjects k ≠ ""))) :=
  claim1_ambiguous_subject noEnv sampleCtxTwoSubjects (by decide)

/-- C2: when no subject flag carries a non-empty value, subject resolution
falls back to the build name/number: it returns buildName (with the context
updated by the fallback) exactly when both the build name and the build number
are obtainable from flag or environment, and otherwise fails with the
no-subject error. -/
theorem claim2_subject_env_fallback (env : cli.Env) (ctx : cli.Context)
    (h0 : (cli.subjectTypes.filter (fun k => cli.getStringFlagValue ctx k ≠ "")).length = 0) :
    (((cli.isFlagSet ctx cli.buildName = true ∨ env cli.buildNameEnv ≠ "") ∧
      (cli.isFlagSet ctx cli.buildNumber = true ∨ env cli.buildNumberEnv ≠ "")) →
      cli.getAndValidateSubject env ctx =
        .ok (cli.buildName, (cli.attemptSetBuildNameAndNumber env ctx).2))
    ∧ (¬ ((cli.isFlagSet ctx cli.buildName = true ∨ env cli.buildNameEnv ≠ "") ∧
        (cli.isFlagSet ctx cli.buildNumber = true ∨ env cli.buildNumberEnv ≠ "")) →
      cli.getAndValidateSubject env ctx = .error cli.noSubjectErrMsg) := by
  have hfilter : cli.subjectTypes.filter (fun k => cli.getStringFlagValue ctx k ≠ "") = [] :=
    List.length_eq_zero.mp h0
  constructor
  · intro hobt
    have hb : (cli.attemptSetBuildNameAndNumber env ctx).1 = true :=
      (attemptSetBuildNameAndNumber_fst_iff env ctx).mpr hobt
    simp only [cli.getAndValidateSubject]
    rw [if_pos h0, if_neg (not_not_intro hb), hfilter]
    simp [cli.validateFoundSubjects]
  · intro hnot
    have hb : ¬ ((cli.attemptSetBuildNameAndNumber env ctx).1 = true) :=
      fun hc => hnot ((attemptSetBuildNameAndNumber_fst_iff env ctx).mp hc)
    simp only [cli.getAndValidateSubject]
    rw [if_pos h0, if_pos hb]

/-- Witness for C2: empty context, build name and number from the environment. -/
theorem claim2_subject_env_fallback_witness :
    cli.getAndValidateSubject sampleBuildEnv emptyCtx =
      .ok (cli.buildName, (cli.attemptSetBuildNameAndNumber sampleBuildEnv emptyCtx).2) :=
  (claim2_subject_env_fallback sampleBuildEnv emptyCtx (by decide)).1 (by decide)

/-- ensureKeyExists succeeds exactly when the key flag carries a non-empty
value or the signing-key environment variable is non-empty. -/
theorem ensureKeyExists_ok_iff (env : cli.Env) (ctx : cli.Context) :
    (∃ ctx1, cli.ensureKeyExists env ctx = .ok ctx1) ↔
      ((cli.isFlagSet ctx cli.key = true ∧ cli.getStringFlagValue ctx cli.key ≠ "") ∨
        env cli.signingKeyEnv ≠ "") := by
  unfold cli.ensureKeyExists
  by_cases hflag : (cli.isFlagSet ctx cli.key = true ∧
      cli.assertValueProvided ctx cli.key = none)
  · have hv := (assertValueProvided_eq_none_iff ctx cli.key).mp hflag.2
    simp [hflag, hflag.1, hv]
  · by_cases henv : env cli.signingKeyEnv = ""
    · have hr : ¬ ((cli.isFlagSet ctx cli.key = true ∧
          cli.getStringFlagValue ctx cli.key ≠ "") ∨ env cli.signingKeyEnv ≠ "") := by
        rintro (⟨ha, hb⟩ | hc)
        · exact hflag ⟨ha, (assertValueProvided_eq_none_iff ctx cli.key).mpr hb⟩
        · exact hc henv
      rw [if_neg hflag, if_pos henv]
      constructor
      · rintro ⟨ctx1, hcontra⟩
        exact Except.noConfusion hcontra
      · intro hor
        exact absurd hor hr
    · simp [hflag, henv]

/-- C6: the signing key is mandatory one way or the other: ensureKeyExists
succeeds exactly when the key flag carries a non-empty value or the
JFROG_CLI_SIGNING_KEY environment variable is non-empty; when neither holds,
the create-evidence pipeline fails with the key error during common
validation, before subject resolution and before server-detail resolution. -/
theorem claim6_key_mandatory (env : cli.Env) (serverDetails : cli.ServerDetails)
    (ctx : cli.Context) :
    ((∃ ctx1, cli.ensureKeyExists env ctx = .ok ctx1) ↔
      ((cli.isFlagSet ctx cli.key = true ∧ cli.getStringFlagValue ctx cli.key ≠ "") ∨
        env cli.signingKeyEnv ≠ ""))
    ∧ (ctx.arguments.length ≤ 1 →
       cli.isFlagSet ctx cli.predicate = true →
       cli.getStringFlagValue ctx cli.predicate ≠ "" →
       cli.isFlagSet ctx cli.predicateType = true →
       cli.getStringFlagValue ctx cli.predicateType ≠ "" →
       ¬ (cli.isFlagSet ctx cli.key = true ∧ cli.getStringFlagValue ctx cli.key ≠ "") →
       env cli.signingKeyEnv = "" →
       cli.createEvidencePipeline env serverDetails ctx = .error cli.keyErrMsg) := by
  refine ⟨ensureKeyExists_ok_iff env ctx, ?_⟩
  intro hargs hp hpv hpt hptv hkey henv
  have h1 : ¬ (1 < ctx.arguments.length) := by omega
  have h2 : ¬ (¬ cli.isFlagSet ctx cli.predicate = true ∨
      cli.assertValueProvided ctx cli.predicate ≠ none) := by
    rw [not_or]
    exact ⟨not_not_intro hp,
      not_not_intro ((assertValueProvided_eq_none_iff ctx cli.predicate).mpr hpv)⟩
  have h3 : ¬ (¬ cli.isFlagSet ctx cli.predicateType = true ∨
      cli.assertValueProvided ctx cli.predicateType ≠ none) := by
    rw [not_or]
    exact ⟨not_not_intro hpt,
      not_not_intro ((assertValueProvided_eq_none_iff ctx cli.predicateType).mpr hptv)⟩
  have h4 : cli.ensureKeyExists env ctx = .error cli.keyErrMsg := by
    unfold cli.ensureKeyExists
    have hnc : ¬ (cli.isFlagSet ctx cli.key = true ∧
        cli.assertValueProvided ctx cli.key = none) := by
      rintro ⟨ha, hb⟩
      exact hkey ⟨ha, (assertValueProvided_eq_none_iff ctx cli.key).mp hb⟩
    rw [if_neg hnc, if_pos henv]
  simp only [cli.createEvidencePipeline, cli.validateCreateEvidenceCommonContext]
  rw [if_neg h1, if_neg h2, if_neg h3, h4]

/-- Witness for C6: predicate and predicate-type provided, no key flag, empty
environment; the pipeline fails with the key error. -/
theorem claim6_key_mandatory_witness :
    cli.createEvidencePipeline noEnv sampleServer sampleCtxNoKey = .error cli.keyErrMsg :=
  (claim6_key_mandatory noEnv sampleServer sampleCtxNoKey).2 (by decide) (by decide)
    (by decide) (by decide) (by decide) (by decide) rfl

/-- C7: a missing or empty predicate (resp. predicate-type) flag makes
common-context validation fail with the error naming that mandatory field,
and the create-evidence pipeline stops with that same error. -/
theorem claim7_predicate_mandatory (env : cli.Env) (serverDetails : cli.ServerDetails)
    (ctx : cli.Context) (hargs : ctx.arguments.length ≤ 1) :
    ((¬ cli.isFlagSet ctx cli.predicate = true ∨
        cli.getStringFlagValue ctx cli.predicate = "") →
      cli.validateCreateEvidenceCommonContext env ctx = .error cli.predicateErrMsg
      ∧ cli.createEvidencePipeline env serverDetails ctx = .error cli.predicateErrMsg)
    ∧ (cli.isFlagSet ctx cli.predicate = true →
       cli.getStringFlagValue ctx cli.predicate ≠ "" →
       (¬ cli.isFlagSet ctx cli.predicateType = true ∨
         cli.getStringFlagValue ctx cli.predicateType = "") →
      cli.validateCreateEvidenceCommonContext env ctx = .error cli.predicateTypeErrMsg
      ∧ cli.createEvidencePipeline env serverDetails ctx = .error cli.predicateTypeErrMsg) := by
  have h1 : ¬ (1 < ctx.arguments.length) := by omega
  constructor
  · intro hmiss
    have hcond : ¬ cli.isFlagSet ctx cli.predicate = true ∨
        cli.assertValueProvided ctx cli.predicate ≠ none := by
      rcases hmiss with h | h
      · exact Or.inl h
      · refine Or.inr fun hn => ?_
        exact ((assertValueProvided_eq_none_iff ctx cli.predicate).mp hn) h
    have hval : cli.validateCreateEvidenceCommonContext env ctx = .error cli.predicateErrMsg := by
      unfold cli.validateCreateEvidenceCommonContext
      rw [if_neg h1, if_pos hcond]
    refine ⟨hval, ?_⟩
    simp only [cli.createEvidencePipeline]
    rw [hval]
  · intro hp hpv hmiss
    have h2 : ¬ (¬ cli.isFlagSet ctx cli.predicate = true ∨
        cli.assertValueProvided ctx cli.predicate ≠ none) := by
      rw [not_or]
      exact ⟨not_not_intro hp,
        not_not_intro ((assertValueProvided_eq_none_iff ctx cli.predicate).mpr hpv)⟩
    have hcond : ¬ cli.isFlagSet ctx cli.predicateType = true ∨
        cli.assertValueProvided ctx cli.predicateType ≠ none := by
      rcases hmiss with h | h
      · exact Or.inl h
      · refine Or.inr fun hn => ?_
        exact ((assertValueProvided_eq_none_iff ctx cli.predicateType).mp hn) h
    have hval : cli.validateCreateEvidenceCommonContext env ctx =
        .error cli.predicateTypeErrMsg := by
      unfold cli.validateCreateEvidenceCommonContext
      rw [if_neg h1, if_neg h2, if_pos hcond]
    refine ⟨hval, ?_⟩
    simp only [cli.createEvidencePipeline]
    rw [hval]

/-- Witness for C7: an empty context has no predicate flag. -/
theorem claim7_predicate_mandatory_witness :
    cli.validateCreateEvidenceCommonContext noEnv emptyCtx = .error cli.predicateErrMsg
    ∧ cli.createEvidencePipeline noEnv sampleServer emptyCtx = .error cli.predicateErrMsg :=
  (claim7_predicate_mandatory noEnv sampleServer emptyCtx (by decide)).1 (by decide)
